import Mathlib

/-!
# volt-neural: the NAM FFI wrapper (src/nam.h, src/nam_wrapper.cpp)

A shallow embedding of the C boundary layer around the Neural Amp Modeler engine.

* Pointers are addresses (`Addr`, a natural number, `0` is `nullptr`).
* The memory the wrapper can see is a `World`: the thread-local `g_last_error`
  (one string per thread), the `NamDSP` objects by address, and the sample
  slots by address (a slot that was never written holds `none`).
* A `double` is its binary64 bit pattern; the wrapper only passes doubles
  through and returns the literals `-1.0` and `0.0`.
* Dereferencing a non-null pointer at which no `NamDSP` lives is undefined
  behaviour: the embedded function returns `none` there.
* A `try` block evaluates to `Try.done` or `Try.thrown`; the `catch` handlers of
  the source are kept, with a ghost flag `caught` telling that a handler ran.
* `std::string` assignment is taken to succeed (no allocation failure).
-/

namespace NamWrapper

/-- An address; `0` is the null pointer. -/
abbrev Addr := Nat

/-- The null pointer. -/
def nullptr : Addr := 0

/-- A calling context: the id of the thread that runs a wrapper function. -/
abbrev ThreadId := Nat

/-- A `double` (`NAM_SAMPLE` is `double`), as its IEEE-754 binary64 bit pattern. -/
structure Double where
  bits : Nat
deriving DecidableEq, Repr

/-- The literal `0.0`. -/
def Double.zero : Double := ⟨0⟩

/-- The literal `-1.0`: sign 1, biased exponent 1023, fraction 0. -/
def Double.negOne : Double := ⟨0xBFF0000000000000⟩

/-- The literal `5.0`: biased exponent 1025, fraction `0x4000000000000`. -/
def Double.five : Double := ⟨0x4014000000000000⟩

/-- The literal `48000.0`: biased exponent 1038, fraction `0x7700000000000`. -/
def Double.r48000 : Double := ⟨0x40E7700000000000⟩

/-- A binary64 NaN: exponent field all ones, fraction non-zero. -/
def Double.isNaN (x : Double) : Bool :=
  (x.bits / 2 ^ 52) % 2 ^ 11 == 2047 && x.bits % 2 ^ 52 != 0

/-- Positive or negative zero: every bit but the sign is clear. -/
def Double.isZero (x : Double) : Bool :=
  x.bits % 2 ^ 63 == 0

/-- The C++ comparison `x == y` on doubles: false on a NaN, and `0.0 == -0.0`. -/
def Double.eq (x y : Double) : Bool :=
  !x.isNaN && !y.isNaN && (x.bits == y.bits || (x.isZero && y.isZero))

/-- The struct `NamDSP` of nam.h: one field, the untyped pointer to the engine. -/
structure NamDSP where
  ptr : Addr
deriving DecidableEq, Repr

/-- The memory a wrapper call can observe. -/
structure World where
  /-- The variable `static thread_local std::string g_last_error`, one per thread. -/
  g_last_error : ThreadId → String
  /-- The `NamDSP` objects, by address; `none` where no object lives. -/
  dsp : Addr → Option NamDSP
  /-- The sample slots, by address; `none` for a slot never written. -/
  samples : Addr → Option Double
  /-- The environment: which paths name a file that exists. No wrapper function reads it. -/
  files : String → Bool

/-- The assignment `g_last_error = msg` executed by thread `t`. -/
def World.setLastError (w : World) (t : ThreadId) (msg : String) : World :=
  { w with g_last_error := fun u => if u = t then msg else w.g_last_error u }

/-- The world at program start: every thread-local string is default-constructed
(empty), no object, no written sample, no file. -/
def World.init : World :=
  { g_last_error := fun _ => "", dsp := fun _ => none, samples := fun _ => none,
    files := fun _ => false }

/-- What a `try` block evaluates to: normal completion, or a thrown
`std::exception` with its `what()` text. -/
inductive Try (α : Type) where
  | done (a : α)
  | thrown (what : String)

/-- What a wrapper call leaves behind: the returned value, the memory, and
whether one of its `catch` handlers ran. -/
structure Outcome (α : Type) where
  ret : α
  world : World
  caught : Bool

/-- The guard `dsp == nullptr || dsp->ptr == nullptr`, evaluated left to right;
`none` when `dsp->ptr` reads a non-null address that holds no `NamDSP`. -/
def nullGuard (w : World) (dsp : Addr) : Option Bool :=
  if dsp = nullptr then some true
  else match w.dsp dsp with
    | none => none
    | some d => some (d.ptr == nullptr)

/-- The function `nam_load_model` (nam_wrapper.cpp 21-44). The engine call is
commented out in the source, so the `try` block only records the message and
returns `nullptr`. -/
def nam_load_model (t : ThreadId) (model_path : Option String) (w : World) : Outcome Addr :=
  match model_path with
  | none => ⟨nullptr, w.setLastError t "Model path is null", false⟩
  | some _ =>
    match (Try.done (nullptr, w.setLastError t "NAM library not yet integrated") :
        Try (Addr × World)) with
    | .done r => ⟨r.1, r.2, false⟩
    | .thrown what => ⟨nullptr, w.setLastError t ("Exception loading model: " ++ what), true⟩

/-- The function `nam_free_model` (46-53): the condition `dsp && dsp->ptr` is
evaluated and both branches are empty (the deletes are commented out). -/
def nam_free_model (_t : ThreadId) (dsp : Addr) (w : World) : Option (Outcome Unit) :=
  if dsp = nullptr then some ⟨(), w, false⟩
  else match w.dsp dsp with
    | none => none
    | some d => if d.ptr ≠ nullptr then some ⟨(), w, false⟩ else some ⟨(), w, false⟩

/-- The function `nam_process` (55-67): guard, then an empty `try` block. -/
def nam_process (t : ThreadId) (dsp : Addr) (_input _output : Addr) (_num_frames : Int)
    (w : World) : Option (Outcome Unit) :=
  match nullGuard w dsp with
  | none => none
  | some true => some ⟨(), w, false⟩
  | some false =>
    match (Try.done () : Try Unit) with
    | .done _ => some ⟨(), w, false⟩
    | .thrown what => some ⟨(), w.setLastError t ("Exception in process: " ++ what), true⟩

/-- The function `nam_reset` (69-81): guard, then an empty `try` block. -/
def nam_reset (t : ThreadId) (dsp : Addr) (_sample_rate : Double) (_max_buffer_size : Int)
    (w : World) : Option (Outcome Unit) :=
  match nullGuard w dsp with
  | none => none
  | some true => some ⟨(), w, false⟩
  | some false =>
    match (Try.done () : Try Unit) with
    | .done _ => some ⟨(), w, false⟩
    | .thrown what => some ⟨(), w.setLastError t ("Exception in reset: " ++ what), true⟩

/-- The function `nam_prewarm` (83-95): guard, then an empty `try` block. -/
def nam_prewarm (t : ThreadId) (dsp : Addr) (w : World) : Option (Outcome Unit) :=
  match nullGuard w dsp with
  | none => none
  | some true => some ⟨(), w, false⟩
  | some false =>
    match (Try.done () : Try Unit) with
    | .done _ => some ⟨(), w, false⟩
    | .thrown what => some ⟨(), w.setLastError t ("Exception in prewarm: " ++ what), true⟩

/-- The function `nam_get_expected_sample_rate` (97-111): `-1.0` on every path. -/
def nam_get_expected_sample_rate (t : ThreadId) (dsp : Addr) (w : World) :
    Option (Outcome Double) :=
  match nullGuard w dsp with
  | none => none
  | some true => some ⟨Double.negOne, w, false⟩
  | some false =>
    match (Try.done Double.negOne : Try Double) with
    | .done r => some ⟨r, w, false⟩
    | .thrown what =>
      some ⟨Double.negOne,
        w.setLastError t ("Exception in get_expected_sample_rate: " ++ what), true⟩

/-- The function `nam_has_input_level` (113-127): `0` on every path. -/
def nam_has_input_level (t : ThreadId) (dsp : Addr) (w : World) : Option (Outcome Int) :=
  match nullGuard w dsp with
  | none => none
  | some true => some ⟨0, w, false⟩
  | some false =>
    match (Try.done 0 : Try Int) with
    | .done r => some ⟨r, w, false⟩
    | .thrown what =>
      some ⟨0, w.setLastError t ("Exception in has_input_level: " ++ what), true⟩

/-- The function `nam_has_output_level` (129-143): `0` on every path. -/
def nam_has_output_level (t : ThreadId) (dsp : Addr) (w : World) : Option (Outcome Int) :=
  match nullGuard w dsp with
  | none => none
  | some true => some ⟨0, w, false⟩
  | some false =>
    match (Try.done 0 : Try Int) with
    | .done r => some ⟨r, w, false⟩
    | .thrown what =>
      some ⟨0, w.setLastError t ("Exception in has_output_level: " ++ what), true⟩

/-- The function `nam_get_input_level` (145-159): `0.0` on every path. -/
def nam_get_input_level (t : ThreadId) (dsp : Addr) (w : World) : Option (Outcome Double) :=
  match nullGuard w dsp with
  | none => none
  | some true => some ⟨Double.zero, w, false⟩
  | some false =>
    match (Try.done Double.zero : Try Double) with
    | .done r => some ⟨r, w, false⟩
    | .thrown what =>
      some ⟨Double.zero, w.setLastError t ("Exception in get_input_level: " ++ what), true⟩

/-- The function `nam_get_output_level` (161-175): `0.0` on every path. -/
def nam_get_output_level (t : ThreadId) (dsp : Addr) (w : World) : Option (Outcome Double) :=
  match nullGuard w dsp with
  | none => none
  | some true => some ⟨Double.zero, w, false⟩
  | some false =>
    match (Try.done Double.zero : Try Double) with
    | .done r => some ⟨r, w, false⟩
    | .thrown what =>
      some ⟨Double.zero, w.setLastError t ("Exception in get_output_level: " ++ what), true⟩

/-- The function `nam_set_input_level` (177-189): guard, then an empty `try` block. -/
def nam_set_input_level (t : ThreadId) (dsp : Addr) (_level : Double) (w : World) :
    Option (Outcome Unit) :=
  match nullGuard w dsp with
  | none => none
  | some true => some ⟨(), w, false⟩
  | some false =>
    match (Try.done () : Try Unit) with
    | .done _ => some ⟨(), w, false⟩
    | .thrown what =>
      some ⟨(), w.setLastError t ("Exception in set_input_level: " ++ what), true⟩

/-- The function `nam_set_output_level` (191-203): guard, then an empty `try` block. -/
def nam_set_output_level (t : ThreadId) (dsp : Addr) (_level : Double) (w : World) :
    Option (Outcome Unit) :=
  match nullGuard w dsp with
  | none => none
  | some true => some ⟨(), w, false⟩
  | some false =>
    match (Try.done () : Try Unit) with
    | .done _ => some ⟨(), w, false⟩
    | .thrown what =>
      some ⟨(), w.setLastError t ("Exception in set_output_level: " ++ what), true⟩

/-- The function `nam_has_loudness` (205-219): `0` on every path. -/
def nam_has_loudness (t : ThreadId) (dsp : Addr) (w : World) : Option (Outcome Int) :=
  match nullGuard w dsp with
  | none => none
  | some true => some ⟨0, w, false⟩
  | some false =>
    match (Try.done 0 : Try Int) with
    | .done r => some ⟨r, w, false⟩
    | .thrown what =>
      some ⟨0, w.setLastError t ("Exception in has_loudness: " ++ what), true⟩

/-- The function `nam_get_loudness` (221-235): `0.0` on every path. -/
def nam_get_loudness (t : ThreadId) (dsp : Addr) (w : World) : Option (Outcome Double) :=
  match nullGuard w dsp with
  | none => none
  | some true => some ⟨Double.zero, w, false⟩
  | some false =>
    match (Try.done Double.zero : Try Double) with
    | .done r => some ⟨r, w, false⟩
    | .thrown what =>
      some ⟨Double.zero, w.setLastError t ("Exception in get_loudness: " ++ what), true⟩

/-- The function `nam_set_loudness` (237-249): guard, then an empty `try` block. -/
def nam_set_loudness (t : ThreadId) (dsp : Addr) (_loudness : Double) (w : World) :
    Option (Outcome Unit) :=
  match nullGuard w dsp with
  | none => none
  | some true => some ⟨(), w, false⟩
  | some false =>
    match (Try.done () : Try Unit) with
    | .done _ => some ⟨(), w, false⟩
    | .thrown what =>
      some ⟨(), w.setLastError t ("Exception in set_loudness: " ++ what), true⟩

/-- The function `nam_get_last_error` (251-253): the calling thread's string. -/
def nam_get_last_error (t : ThreadId) (w : World) : Outcome String :=
  ⟨w.g_last_error t, w, false⟩

/-! ## Calls and call sequences -/

/-- One call of the C API with its arguments. -/
inductive Op where
  | load_model (model_path : Option String)
  | free_model (dsp : Addr)
  | process (dsp input output : Addr) (num_frames : Int)
  | reset (dsp : Addr) (sample_rate : Double) (max_buffer_size : Int)
  | prewarm (dsp : Addr)
  | get_expected_sample_rate (dsp : Addr)
  | has_input_level (dsp : Addr)
  | has_output_level (dsp : Addr)
  | get_input_level (dsp : Addr)
  | get_output_level (dsp : Addr)
  | set_input_level (dsp : Addr) (level : Double)
  | set_output_level (dsp : Addr) (level : Double)
  | has_loudness (dsp : Addr)
  | get_loudness (dsp : Addr)
  | set_loudness (dsp : Addr) (loudness : Double)
  | get_last_error

/-- The value a call returns, over the return types of nam.h. -/
inductive Ret where
  | handle (a : Addr)
  | unit
  | real (d : Double)
  | int (i : Int)
  | str (s : String)
deriving DecidableEq

/-- Retags the returned value of an outcome. -/
def Outcome.mapRet {α β : Type} (f : α → β) (o : Outcome α) : Outcome β :=
  ⟨f o.ret, o.world, o.caught⟩

/-- Thread `t` executes one call; `none` when the call has undefined behaviour. -/
def step (t : ThreadId) (op : Op) (w : World) : Option (Outcome Ret) :=
  match op with
  | .load_model p => some ((nam_load_model t p w).mapRet Ret.handle)
  | .free_model d => (nam_free_model t d w).map (Outcome.mapRet fun _ => Ret.unit)
  | .process d i o n => (nam_process t d i o n w).map (Outcome.mapRet fun _ => Ret.unit)
  | .reset d r n => (nam_reset t d r n w).map (Outcome.mapRet fun _ => Ret.unit)
  | .prewarm d => (nam_prewarm t d w).map (Outcome.mapRet fun _ => Ret.unit)
  | .get_expected_sample_rate d =>
    (nam_get_expected_sample_rate t d w).map (Outcome.mapRet Ret.real)
  | .has_input_level d => (nam_has_input_level t d w).map (Outcome.mapRet Ret.int)
  | .has_output_level d => (nam_has_output_level t d w).map (Outcome.mapRet Ret.int)
  | .get_input_level d => (nam_get_input_level t d w).map (Outcome.mapRet Ret.real)
  | .get_output_level d => (nam_get_output_level t d w).map (Outcome.mapRet Ret.real)
  | .set_input_level d v => (nam_set_input_level t d v w).map (Outcome.mapRet fun _ => Ret.unit)
  | .set_output_level d v =>
    (nam_set_output_level t d v w).map (Outcome.mapRet fun _ => Ret.unit)
  | .has_loudness d => (nam_has_loudness t d w).map (Outcome.mapRet Ret.int)
  | .get_loudness d => (nam_get_loudness t d w).map (Outcome.mapRet Ret.real)
  | .set_loudness d v => (nam_set_loudness t d v w).map (Outcome.mapRet fun _ => Ret.unit)
  | .get_last_error => some ((nam_get_last_error t w).mapRet Ret.str)

/-- A sequence of calls, each tagged with the thread that makes it, run in order. -/
def run : List (ThreadId × Op) → World → Option World
  | [], w => some w
  | (t, op) :: rest, w =>
    match step t op w with
    | none => none
    | some o => run rest o.world

/-- The handle argument of a call, if it takes one. -/
def Op.handle : Op → Option Addr
  | .load_model _ => none
  | .free_model d => some d
  | .process d _ _ _ => some d
  | .reset d _ _ => some d
  | .prewarm d => some d
  | .get_expected_sample_rate d => some d
  | .has_input_level d => some d
  | .has_output_level d => some d
  | .get_input_level d => some d
  | .get_output_level d => some d
  | .set_input_level d _ => some d
  | .set_output_level d _ => some d
  | .has_loudness d => some d
  | .get_loudness d => some d
  | .set_loudness d _ => some d
  | .get_last_error => none

/-- A handle a caller may pass: null, or the address of a live `NamDSP`. -/
def handleOk (w : World) (dsp : Addr) : Bool :=
  dsp == nullptr || (w.dsp dsp).isSome

/-- The call passes no handle, or one that is null or live. -/
def opOk (w : World) (op : Op) : Bool :=
  match op.handle with
  | none => true
  | some d => handleOk w d

/-- Every call of the sequence passes a handle that is null or live. -/
def handlesOk (w : World) (ops : List (ThreadId × Op)) : Bool :=
  ops.all fun p => opOk w p.2

/-- The three calibration axes of nam.h. -/
inductive Axis where
  | inputLevel
  | outputLevel
  | loudness
deriving DecidableEq, Repr

/-- The query `nam_has_X` of an axis. -/
def nam_has (x : Axis) (t : ThreadId) (dsp : Addr) (w : World) : Option (Outcome Int) :=
  match x with
  | .inputLevel => nam_has_input_level t dsp w
  | .outputLevel => nam_has_output_level t dsp w
  | .loudness => nam_has_loudness t dsp w

/-- The getter `nam_get_X` of an axis. -/
def nam_get (x : Axis) (t : ThreadId) (dsp : Addr) (w : World) : Option (Outcome Double) :=
  match x with
  | .inputLevel => nam_get_input_level t dsp w
  | .outputLevel => nam_get_output_level t dsp w
  | .loudness => nam_get_loudness t dsp w

/-- The setter `nam_set_X` of an axis. -/
def nam_set (x : Axis) (t : ThreadId) (dsp : Addr) (v : Double) (w : World) :
    Option (Outcome Unit) :=
  match x with
  | .inputLevel => nam_set_input_level t dsp v w
  | .outputLevel => nam_set_output_level t dsp v w
  | .loudness => nam_set_loudness t dsp v w

/-- A call reports a failure when `nam_load_model` returns `NULL` (nam.h:
"Returns NULL on failure") or when a `catch` handler ran. A guarded return on
a null handle reports nothing. -/
def failed (op : Op) (o : Outcome Ret) : Bool :=
  o.caught || (match op, o.ret with
    | .load_model _, .handle a => a == nullptr
    | _, _ => false)

/-- Thread `t` runs the sequence from `w`, remembering in `acc` what its error
record held right after its most recent failing call: the message that call
wrote. `acc` starts as the message before any failure. -/
def lastFailureMessage (t : ThreadId) : List (ThreadId × Op) → World → String → Option String
  | [], _, acc => some acc
  | (u, op) :: rest, w, acc =>
    match step u op w with
    | none => none
    | some o =>
      lastFailureMessage t rest o.world
        (if u = t ∧ failed op o = true then o.world.g_last_error t else acc)

/-- The lifecycle states of a handle in the specification (section 4.1). -/
inductive Lifecycle where
  | Unloaded
  | Loaded
  | Configured
  | Destroyed
deriving DecidableEq, Repr

/-- The transitions of the specification's lifecycle, driven by a call and what
it returned: only a load that returns a handle leaves `Unloaded`; reset
configures; release destroys a handle that exists. -/
def Lifecycle.next : Lifecycle → Op → Ret → Lifecycle
  | .Unloaded, .load_model _, .handle a => if a = nullptr then .Unloaded else .Loaded
  | .Unloaded, _, _ => .Unloaded
  | .Destroyed, _, _ => .Destroyed
  | _, .free_model _, _ => .Destroyed
  | _, .reset _ _ _, _ => .Configured
  | s, _, _ => s

/-- The lifecycle state after a sequence of calls started in state `s`. -/
def runLifecycle : List (ThreadId × Op) → World → Lifecycle → Option Lifecycle
  | [], _, s => some s
  | (t, op) :: rest, w, s =>
    match step t op w with
    | none => none
    | some o => runLifecycle rest o.world (s.next op o.ret)

/-- A message is a file-not-found indication when `nam_load_model` never leaves
it for a path that names an existing file. -/
def FileNotFoundIndication (msg : String) : Prop :=
  ∀ (t : ThreadId) (p : String) (w : World), w.files p = true →
    (nam_get_last_error t (nam_load_model t (some p) w).world).ret ≠ msg

/-- Every slot of the buffer of `n` samples at `out` holds a written sample. -/
def fullyPopulated (w : World) (out : Addr) (n : Nat) : Prop :=
  ∀ i, i < n → (w.samples (out + i)).isSome = true

/-! ## Concrete memories used to exercise the statements -/

/-- A memory with one caller-built `NamDSP` at address 1 whose `ptr` is non-null,
a written input buffer of 512 zeros at 1000 and a fresh output buffer at 2000. -/
def worldWithEngine : World :=
  { World.init with
    dsp := fun a => if a = 1 then some ⟨7⟩ else none
    samples := fun a => if 1000 ≤ a ∧ a < 1512 then some Double.zero else none }

/-- A memory with one `NamDSP` at address 1 whose `ptr` is null. -/
def worldWithEmptyHandle : World :=
  { World.init with dsp := fun a => if a = 1 then some ⟨nullptr⟩ else none }

/-! ## Facts about single calls -/

theorem nullGuard_of_handleOk {w : World} {d : Addr} (h : handleOk w d = true) :
    ∃ b, nullGuard w d = some b := by
  unfold handleOk at h
  unfold nullGuard
  by_cases hd : d = nullptr
  · exact ⟨true, by simp [hd]⟩
  · cases hw : w.dsp d with
    | none => simp [hd, hw] at h
    | some x => exact ⟨x.ptr == nullptr, by simp [hd]⟩

theorem nullGuard_of_null {w : World} {d : Addr}
    (h : d = nullptr ∨ w.dsp d = some ⟨nullptr⟩) : nullGuard w d = some true := by
  unfold nullGuard
  rcases h with h | h
  · simp [h]
  · by_cases hd : d = nullptr
    · simp [hd]
    · simp [hd, h]

theorem nullGuard_of_engine {w : World} {d : Addr} {x : NamDSP}
    (h : w.dsp d = some x) (hx : x.ptr ≠ nullptr) (hd : d ≠ nullptr) :
    nullGuard w d = some false := by
  unfold nullGuard
  simp [hd, h, hx]

theorem nam_free_model_eq (t : ThreadId) (d : Addr) (w : World) :
    nam_free_model t d w = (nullGuard w d).map fun _ => ⟨(), w, false⟩ := by
  unfold nam_free_model nullGuard
  by_cases hd : d = nullptr
  · simp [hd]
  · cases hw : w.dsp d <;> simp [hd]

theorem nam_process_eq (t : ThreadId) (d i o : Addr) (n : Int) (w : World) :
    nam_process t d i o n w = (nullGuard w d).map fun _ => ⟨(), w, false⟩ := by
  unfold nam_process
  rcases nullGuard w d with _ | _ | _ <;> rfl

theorem nam_reset_eq (t : ThreadId) (d : Addr) (r : Double) (n : Int) (w : World) :
    nam_reset t d r n w = (nullGuard w d).map fun _ => ⟨(), w, false⟩ := by
  unfold nam_reset
  rcases nullGuard w d with _ | _ | _ <;> rfl

theorem nam_prewarm_eq (t : ThreadId) (d : Addr) (w : World) :
    nam_prewarm t d w = (nullGuard w d).map fun _ => ⟨(), w, false⟩ := by
  unfold nam_prewarm
  rcases nullGuard w d with _ | _ | _ <;> rfl

theorem nam_get_expected_sample_rate_eq (t : ThreadId) (d : Addr) (w : World) :
    nam_get_expected_sample_rate t d w =
      (nullGuard w d).map fun _ => ⟨Double.negOne, w, false⟩ := by
  unfold nam_get_expected_sample_rate
  rcases nullGuard w d with _ | _ | _ <;> rfl

theorem nam_has_input_level_eq (t : ThreadId) (d : Addr) (w : World) :
    nam_has_input_level t d w = (nullGuard w d).map fun _ => ⟨0, w, false⟩ := by
  unfold nam_has_input_level
  rcases nullGuard w d with _ | _ | _ <;> rfl

theorem nam_has_output_level_eq (t : ThreadId) (d : Addr) (w : World) :
    nam_has_output_level t d w = (nullGuard w d).map fun _ => ⟨0, w, false⟩ := by
  unfold nam_has_output_level
  rcases nullGuard w d with _ | _ | _ <;> rfl

theorem nam_get_input_level_eq (t : ThreadId) (d : Addr) (w : World) :
    nam_get_input_level t d w = (nullGuard w d).map fun _ => ⟨Double.zero, w, false⟩ := by
  unfold nam_get_input_level
  rcases nullGuard w d with _ | _ | _ <;> rfl

theorem nam_get_output_level_eq (t : ThreadId) (d : Addr) (w : World) :
    nam_get_output_level t d w = (nullGuard w d).map fun _ => ⟨Double.zero, w, false⟩ := by
  unfold nam_get_output_level
  rcases nullGuard w d with _ | _ | _ <;> rfl

theorem nam_set_input_level_eq (t : ThreadId) (d : Addr) (v : Double) (w : World) :
    nam_set_input_level t d v w = (nullGuard w d).map fun _ => ⟨(), w, false⟩ := by
  unfold nam_set_input_level
  rcases nullGuard w d with _ | _ | _ <;> rfl

theorem nam_set_output_level_eq (t : ThreadId) (d : Addr) (v : Double) (w : World) :
    nam_set_output_level t d v w = (nullGuard w d).map fun _ => ⟨(), w, false⟩ := by
  unfold nam_set_output_level
  rcases nullGuard w d with _ | _ | _ <;> rfl

theorem nam_has_loudness_eq (t : ThreadId) (d : Addr) (w : World) :
    nam_has_loudness t d w = (nullGuard w d).map fun _ => ⟨0, w, false⟩ := by
  unfold nam_has_loudness
  rcases nullGuard w d with _ | _ | _ <;> rfl

theorem nam_get_loudness_eq (t : ThreadId) (d : Addr) (w : World) :
    nam_get_loudness t d w = (nullGuard w d).map fun _ => ⟨Double.zero, w, false⟩ := by
  unfold nam_get_loudness
  rcases nullGuard w d with _ | _ | _ <;> rfl

theorem nam_set_loudness_eq (t : ThreadId) (d : Addr) (v : Double) (w : World) :
    nam_set_loudness t d v w = (nullGuard w d).map fun _ => ⟨(), w, false⟩ := by
  unfold nam_set_loudness
  rcases nullGuard w d with _ | _ | _ <;> rfl

theorem nam_load_model_world (t : ThreadId) (p : Option String) (w : World) :
    nam_load_model t p w =
      ⟨nullptr, w.setLastError t
        (match p with
          | none => "Model path is null"
          | some _ => "NAM library not yet integrated"), false⟩ := by
  cases p <;> rfl

/-- The message `nam_load_model` stores for a path. -/
theorem nam_load_model_error (t : ThreadId) (p : Option String) (w : World) :
    (nam_load_model t p w).world.g_last_error t =
      (match p with
        | none => "Model path is null"
        | some _ => "NAM library not yet integrated") := by
  cases p <;> simp [nam_load_model, World.setLastError]

theorem step_load (t : ThreadId) (p : Option String) (w : World) :
    step t (.load_model p) w = some ⟨.handle nullptr, w.setLastError t
        (match p with
          | none => "Model path is null"
          | some _ => "NAM library not yet integrated"), false⟩ := by
  simp [step, nam_load_model_world, Outcome.mapRet]

/-- A call other than `nam_load_model` leaves the whole memory as it was and
runs no handler. -/
theorem step_quiet {t : ThreadId} {op : Op} {w : World} {o : Outcome Ret}
    (hop : ∀ p, op ≠ .load_model p) (h : step t op w = some o) :
    o.world = w ∧ o.caught = false ∧ failed op o = false := by
  cases op
  case load_model p => exact absurd rfl (hop p)
  case get_last_error =>
    simp only [step, nam_get_last_error, Outcome.mapRet, Option.some.injEq] at h
    subst h
    simp [failed]
  all_goals
    simp only [step, nam_free_model_eq, nam_process_eq, nam_reset_eq, nam_prewarm_eq,
      nam_get_expected_sample_rate_eq, nam_has_input_level_eq, nam_has_output_level_eq,
      nam_get_input_level_eq, nam_get_output_level_eq, nam_set_input_level_eq,
      nam_set_output_level_eq, nam_has_loudness_eq, nam_get_loudness_eq, nam_set_loudness_eq,
      Option.map_map, Option.map_eq_some'] at h
    obtain ⟨b, -, rfl⟩ := h
    simp [failed, Outcome.mapRet]

/-- A call whose handle is null or live returns. -/
theorem step_total (t : ThreadId) {op : Op} {w : World} (h : opOk w op = true) :
    ∃ o, step t op w = some o := by
  cases op
  case load_model p => exact ⟨_, rfl⟩
  case get_last_error => exact ⟨_, rfl⟩
  all_goals
    simp only [opOk, Op.handle] at h
    obtain ⟨b, hb⟩ := nullGuard_of_handleOk h
    simp [step, nam_free_model_eq, nam_process_eq, nam_reset_eq, nam_prewarm_eq,
      nam_get_expected_sample_rate_eq, nam_has_input_level_eq, nam_has_output_level_eq,
      nam_get_input_level_eq, nam_get_output_level_eq, nam_set_input_level_eq,
      nam_set_output_level_eq, nam_has_loudness_eq, nam_get_loudness_eq, nam_set_loudness_eq,
      hb]

/-- No call touches the objects, the samples, the files, or another thread's string. -/
theorem step_frame {t : ThreadId} {op : Op} {w : World} {o : Outcome Ret}
    (h : step t op w = some o) :
    o.world.dsp = w.dsp ∧ o.world.samples = w.samples ∧ o.world.files = w.files ∧
      ∀ u, u ≠ t → o.world.g_last_error u = w.g_last_error u := by
  by_cases hop : ∀ p, op ≠ .load_model p
  · obtain ⟨hw, -, -⟩ := step_quiet hop h
    simp [hw]
  · push_neg at hop
    obtain ⟨p, rfl⟩ := hop
    rw [step_load] at h
    simp only [Option.some.injEq] at h
    subst h
    refine ⟨rfl, rfl, rfl, ?_⟩
    intro u hu
    simp [World.setLastError, hu]

theorem opOk_of_dsp_eq {w w2 : World} (h : w2.dsp = w.dsp) (op : Op) :
    opOk w2 op = opOk w op := by
  unfold opOk handleOk
  rw [h]

theorem handlesOk_of_dsp_eq {w w2 : World} (h : w2.dsp = w.dsp) (ops : List (ThreadId × Op)) :
    handlesOk w2 ops = handlesOk w ops := by
  unfold handlesOk
  simp only [opOk_of_dsp_eq h]

/-- A returning call reports a failure exactly when it is a `nam_load_model`. -/
theorem failed_iff_load {t : ThreadId} {op : Op} {w : World} {o : Outcome Ret}
    (h : step t op w = some o) : failed op o = true ↔ ∃ p, op = .load_model p := by
  constructor
  · intro hf
    by_contra hne
    push_neg at hne
    have := (step_quiet hne h).2.2
    rw [this] at hf
    exact Bool.false_ne_true hf
  · rintro ⟨p, rfl⟩
    rw [step_load] at h
    simp only [Option.some.injEq] at h
    subst h
    simp [failed]

/-- A returning call that reports no failure leaves the whole memory as it was. -/
theorem step_not_failed {t : ThreadId} {op : Op} {w : World} {o : Outcome Ret}
    (h : step t op w = some o) (hf : failed op o = false) : o.world = w := by
  by_cases hop : ∀ p, op ≠ .load_model p
  · exact (step_quiet hop h).1
  · push_neg at hop
    have := (failed_iff_load h).2 hop
    rw [hf] at this
    exact absurd this Bool.false_ne_true

/-- A sequence of calls on null or live handles runs to its end, and the record
of thread `t` is then the tracked message of its most recent failing call. -/
theorem run_tracks_last_failure (t : ThreadId) (ops : List (ThreadId × Op)) :
    ∀ (w : World) (acc : String), handlesOk w ops = true → acc = w.g_last_error t →
      ∃ w2, run ops w = some w2 ∧ lastFailureMessage t ops w acc = some (w2.g_last_error t) := by
  induction ops with
  | nil =>
    intro w acc _ hacc
    exact ⟨w, rfl, by simp [lastFailureMessage, hacc]⟩
  | cons hd rest ih =>
    intro w acc hok hacc
    obtain ⟨u, op⟩ := hd
    have hok2 : opOk w op = true ∧ handlesOk w rest = true := by
      simpa [handlesOk] using hok
    obtain ⟨o, ho⟩ := step_total u hok2.1
    have hfr := step_frame ho
    have hrest : handlesOk o.world rest = true := by
      rw [handlesOk_of_dsp_eq hfr.1]
      exact hok2.2
    have hacc2 : (if u = t ∧ failed op o = true then o.world.g_last_error t else acc)
        = o.world.g_last_error t := by
      by_cases hc : u = t ∧ failed op o = true
      · simp [hc]
      · rw [if_neg hc, hacc]
        by_cases hu : u = t
        · have hf : failed op o = false := by
            cases hfo : failed op o
            · rfl
            · exact absurd ⟨hu, hfo⟩ hc
          rw [step_not_failed ho hf]
        · exact (hfr.2.2.2 t (fun h => hu h.symm)).symm
    obtain ⟨w2, hrun, hlast⟩ := ih o.world _ hrest hacc2
    refine ⟨w2, ?_, ?_⟩
    · simp [run, ho, hrun]
    · simp only [lastFailureMessage, ho]
      exact hlast

/-- From `Unloaded`, a returning call never moves the lifecycle. -/
theorem next_unloaded {t : ThreadId} {op : Op} {w : World} {o : Outcome Ret}
    (h : step t op w = some o) : Lifecycle.next .Unloaded op o.ret = .Unloaded := by
  cases op
  case load_model p =>
    rw [step_load] at h
    simp only [Option.some.injEq] at h
    subst h
    simp [Lifecycle.next]
  all_goals simp [Lifecycle.next]

/-- A sequence of calls started in `Unloaded` faults or ends in `Unloaded`. -/
theorem runLifecycle_unloaded (ops : List (ThreadId × Op)) :
    ∀ w : World, runLifecycle ops w .Unloaded = none ∨
      runLifecycle ops w .Unloaded = some .Unloaded := by
  induction ops with
  | nil => intro w; exact Or.inr rfl
  | cons hd rest ih =>
    intro w
    obtain ⟨u, op⟩ := hd
    cases ho : step u op w with
    | none => left; simp [runLifecycle, ho]
    | some o =>
      simp only [runLifecycle, ho, next_unloaded ho]
      exact ih o.world

/-- A sequence of calls on null or live handles has a lifecycle state at its end. -/
theorem runLifecycle_total (ops : List (ThreadId × Op)) :
    ∀ (w : World) (s : Lifecycle), handlesOk w ops = true →
      ∃ s2, runLifecycle ops w s = some s2 := by
  induction ops with
  | nil => intro w s _; exact ⟨s, rfl⟩
  | cons hd rest ih =>
    intro w s hok
    obtain ⟨u, op⟩ := hd
    have hok2 : opOk w op = true ∧ handlesOk w rest = true := by
      simpa [handlesOk] using hok
    obtain ⟨o, ho⟩ := step_total u hok2.1
    have hrest : handlesOk o.world rest = true := by
      rw [handlesOk_of_dsp_eq (step_frame ho).1]
      exact hok2.2
    obtain ⟨s2, hs2⟩ := ih o.world (s.next op o.ret) hrest
    exact ⟨s2, by simp [runLifecycle, ho, hs2]⟩

/-! ## Properties of the wrapper -/

/-- C1. For every model path, hence for a null path, the empty string and a
path naming no file, `nam_load_model` returns the null handle and the message
`nam_get_last_error` then returns is non-empty and tells the failure kind:
"Model path is null" exactly when the path is null, and
"NAM library not yet integrated" otherwise. -/
theorem load_invalid_path_reports (t : ThreadId) (model_path : Option String) (w : World) :
    (nam_load_model t model_path w).ret = nullptr ∧
    (nam_get_last_error t (nam_load_model t model_path w).world).ret ≠ "" ∧
    ((nam_get_last_error t (nam_load_model t model_path w).world).ret = "Model path is null"
      ↔ model_path = none) ∧
    ((nam_get_last_error t (nam_load_model t model_path w).world).ret
        = "NAM library not yet integrated" ↔ model_path ≠ none) := by
  have hmsg := nam_load_model_error t model_path w
  have hne : ("NAM library not yet integrated" = "Model path is null") = False := by decide
  have hne2 : ("Model path is null" = "NAM library not yet integrated") = False := by decide
  refine ⟨by rw [nam_load_model_world], ?_, ?_, ?_⟩ <;>
    cases model_path <;> simp only [nam_get_last_error, hmsg] <;> simp [hne, hne2]

/-- C2, as stated, fails: after `nam_load_model("does_not_exist.model")` in the
initial memory (where no file exists) the handle is null, but the stored message
is not a file-not-found indication, because the same message is stored when the
file exists. -/
theorem load_missing_file_no_indication :
    ¬ ((nam_load_model 0 (some "does_not_exist.model") World.init).ret = nullptr ∧
      FileNotFoundIndication
        (nam_get_last_error 0
          (nam_load_model 0 (some "does_not_exist.model") World.init).world).ret) := by
  rintro ⟨-, h⟩
  exact h 0 "does_not_exist.model" { World.init with files := fun _ => true } rfl
    (by simp [nam_get_last_error, nam_load_model_error])

/-- C2, amended. `nam_load_model("does_not_exist.model")` returns the null handle
and `nam_get_last_error` then returns exactly "NAM library not yet integrated",
the message stored for every other non-null path as well, whether or not the
path names a file. -/
theorem load_missing_file_message (t : ThreadId) (w : World) :
    (nam_load_model t (some "does_not_exist.model") w).ret = nullptr ∧
    (nam_get_last_error t (nam_load_model t (some "does_not_exist.model") w).world).ret
      = "NAM library not yet integrated" ∧
    ∀ (p : String) (w2 : World),
      (nam_get_last_error t (nam_load_model t (some p) w2).world).ret
        = (nam_get_last_error t
            (nam_load_model t (some "does_not_exist.model") w).world).ret := by
  refine ⟨rfl, ?_, ?_⟩
  · simp [nam_get_last_error, nam_load_model_error]
  · intro p w2
    simp [nam_get_last_error, nam_load_model_error]

/-- C3. On a handle that is null or whose `ptr` is null, with any arguments:
the six mutating calls return and leave the whole memory (error records,
handle objects, sample buffers) as it was, `nam_get_expected_sample_rate`
returns `-1.0`, the three getters return `0.0` and the three `has` queries
return `0`; no handler runs. -/
theorem null_handle_calls_are_inert (t : ThreadId) (dsp input output : Addr)
    (num_frames max_buffer_size : Int) (sample_rate level loudness : Double) (w : World)
    (h : dsp = nullptr ∨ w.dsp dsp = some ⟨nullptr⟩) :
    nam_process t dsp input output num_frames w = some ⟨(), w, false⟩ ∧
    nam_reset t dsp sample_rate max_buffer_size w = some ⟨(), w, false⟩ ∧
    nam_prewarm t dsp w = some ⟨(), w, false⟩ ∧
    nam_set_input_level t dsp level w = some ⟨(), w, false⟩ ∧
    nam_set_output_level t dsp level w = some ⟨(), w, false⟩ ∧
    nam_set_loudness t dsp loudness w = some ⟨(), w, false⟩ ∧
    nam_get_expected_sample_rate t dsp w = some ⟨Double.negOne, w, false⟩ ∧
    nam_get_input_level t dsp w = some ⟨Double.zero, w, false⟩ ∧
    nam_get_output_level t dsp w = some ⟨Double.zero, w, false⟩ ∧
    nam_get_loudness t dsp w = some ⟨Double.zero, w, false⟩ ∧
    nam_has_input_level t dsp w = some ⟨0, w, false⟩ ∧
    nam_has_output_level t dsp w = some ⟨0, w, false⟩ ∧
    nam_has_loudness t dsp w = some ⟨0, w, false⟩ := by
  have hg := nullGuard_of_null h
  simp [nam_process_eq, nam_reset_eq, nam_prewarm_eq, nam_get_expected_sample_rate_eq,
    nam_has_input_level_eq, nam_has_output_level_eq, nam_get_input_level_eq,
    nam_get_output_level_eq, nam_set_input_level_eq, nam_set_output_level_eq,
    nam_has_loudness_eq, nam_get_loudness_eq, nam_set_loudness_eq, hg]

/-- C3 at a live handle whose `ptr` is null, with the arguments of the
specification's scenarios. -/
theorem null_handle_calls_are_inert_witness :
    (1 = nullptr ∨ worldWithEmptyHandle.dsp 1 = some ⟨nullptr⟩) ∧
    nam_process 0 1 1000 2000 512 worldWithEmptyHandle = some ⟨(), worldWithEmptyHandle, false⟩ ∧
    nam_get_expected_sample_rate 0 1 worldWithEmptyHandle
      = some ⟨Double.negOne, worldWithEmptyHandle, false⟩ ∧
    nam_has_loudness 0 1 worldWithEmptyHandle = some ⟨0, worldWithEmptyHandle, false⟩ :=
  have h := null_handle_calls_are_inert 0 1 1000 2000 512 512 Double.r48000 Double.five
    Double.five worldWithEmptyHandle (Or.inr rfl)
  ⟨Or.inr rfl, h.1, h.2.2.2.2.2.2.1, h.2.2.2.2.2.2.2.2.2.2.2.2⟩

/-- C4, as stated, fails: with a handle at address 1 whose `ptr` is non-null, an
input buffer of 512 zeros and a fresh output buffer at 2000, there is no run of
`nam_reset(H, 48000.0, 512)` then `nam_process(H, input, out, 512)` after which
the 512 slots of `out` are all written. -/
theorem process_leaves_output_unwritten :
    ¬ ∃ o1 o2, nam_reset 0 1 Double.r48000 512 worldWithEngine = some o1 ∧
      nam_process 0 1 1000 2000 512 o1.world = some o2 ∧
      fullyPopulated o2.world 2000 512 := by
  rintro ⟨o1, o2, h1, h2, h3⟩
  have hg : nullGuard worldWithEngine 1 = some false := by
    simp [nullGuard, worldWithEngine, nullptr]
  simp only [nam_reset_eq, hg, Option.map_some', Option.some.injEq] at h1
  subst h1
  simp only [nam_process_eq, hg, Option.map_some', Option.some.injEq] at h2
  subst h2
  have h0 := h3 0 (by decide)
  simp [worldWithEngine] at h0

/-- C4, amended. For every live handle whose `ptr` is non-null, and all buffers
and frame counts, `nam_reset(H, 48000.0, 512)` and the following `nam_process`
both return without a fault, run no handler and leave the whole memory as it
was: `nam_process` writes no slot of `out`, so a slot of `out` holds a sample
afterwards only if it did before. -/
theorem reset_then_process_changes_nothing (t : ThreadId) (dsp input output : Addr)
    (num_frames : Int) (w : World) (d : NamDSP)
    (hlive : dsp ≠ nullptr ∧ w.dsp dsp = some d) (hptr : d.ptr ≠ nullptr) :
    nam_reset t dsp Double.r48000 512 w = some ⟨(), w, false⟩ ∧
    nam_process t dsp input output num_frames w = some ⟨(), w, false⟩ ∧
    ∀ o1 o2, nam_reset t dsp Double.r48000 512 w = some o1 →
      nam_process t dsp input output num_frames o1.world = some o2 →
      o2.world = w ∧ o2.world.samples = w.samples := by
  have hg := nullGuard_of_engine hlive.2 hptr hlive.1
  refine ⟨by simp [nam_reset_eq, hg], by simp [nam_process_eq, hg], ?_⟩
  intro o1 o2 h1 h2
  simp only [nam_reset_eq, hg, Option.map_some', Option.some.injEq] at h1
  subst h1
  simp only [nam_process_eq, hg, Option.map_some', Option.some.injEq] at h2
  subst h2
  exact ⟨rfl, rfl⟩

/-- C4, amended, at the scenario of the specification: handle at address 1,
512 zeros in, a fresh buffer out. -/
theorem reset_then_process_changes_nothing_witness :
    (1 ≠ nullptr ∧ worldWithEngine.dsp 1 = some ⟨7⟩) ∧ (7 : Addr) ≠ nullptr ∧
    nam_process 0 1 1000 2000 512 worldWithEngine = some ⟨(), worldWithEngine, false⟩ :=
  have hlive : 1 ≠ nullptr ∧ worldWithEngine.dsp 1 = some ⟨7⟩ := ⟨by decide, rfl⟩
  have hptr : (7 : Addr) ≠ nullptr := by decide
  ⟨hlive, hptr,
    (reset_then_process_changes_nothing 0 1 1000 2000 512 worldWithEngine ⟨7⟩ hlive hptr).2.1⟩

/-- C5. On each calibration axis, for every handle and value `v`: when
`nam_has_X` returns `0`, the following `nam_set_X(handle, v)` returns and leaves
the memory as it was, and the following `nam_get_X` returns the sentinel `0.0`;
the returned value compares unequal to `v` unless `v` is itself a zero. -/
theorem unsupported_axis_set_then_get (x : Axis) (t : ThreadId) (dsp : Addr) (v : Double)
    (w : World) (o : Outcome Int) (hhas : nam_has x t dsp w = some o) (hfalse : o.ret = 0) :
    ∃ o1 o2, nam_set x t dsp v o.world = some o1 ∧ o1.world = w ∧
      nam_get x t dsp o1.world = some o2 ∧ o2.ret = Double.zero ∧
      (v.isZero = false → Double.eq o2.ret v = false) := by
  have key : ∃ b, nullGuard w dsp = some b ∧ o.world = w := by
    cases x <;>
      simp only [nam_has, nam_has_input_level_eq, nam_has_output_level_eq,
        nam_has_loudness_eq, Option.map_eq_some'] at hhas <;>
      obtain ⟨b, hb, rfl⟩ := hhas <;> exact ⟨b, hb, rfl⟩
  obtain ⟨b, hb, hw⟩ := key
  rw [hw]
  refine ⟨⟨(), w, false⟩, ⟨Double.zero, w, false⟩, ?_, rfl, ?_, rfl, ?_⟩
  · cases x <;>
      simp [nam_set, nam_set_input_level_eq, nam_set_output_level_eq, nam_set_loudness_eq, hb]
  · cases x <;>
      simp [nam_get, nam_get_input_level_eq, nam_get_output_level_eq, nam_get_loudness_eq, hb]
  · intro hv
    have hv2 : ¬ v.bits % 2 ^ 63 = 0 := by simpa [Double.isZero] using hv
    have hv3 : ¬ (0 = v.bits) := by
      intro h0
      exact hv2 (by rw [← h0]; exact Nat.zero_mod _)
    simp [Double.eq, Double.zero, hv, hv3]

/-- C5 at the scenario of the specification: `nam_has_loudness` is false, then
`nam_set_loudness(H, 5.0)` and `nam_get_loudness(H)`. -/
theorem unsupported_axis_set_then_get_witness :
    nam_has .loudness 0 1 worldWithEngine = some ⟨0, worldWithEngine, false⟩ ∧
    ∃ o1 o2, nam_set .loudness 0 1 Double.five worldWithEngine = some o1 ∧
      o1.world = worldWithEngine ∧
      nam_get .loudness 0 1 o1.world = some o2 ∧ o2.ret = Double.zero ∧
      (Double.five.isZero = false → Double.eq o2.ret Double.five = false) :=
  have hg : nullGuard worldWithEngine 1 = some false := by
    simp [nullGuard, worldWithEngine, nullptr]
  have hhas : nam_has .loudness 0 1 worldWithEngine = some ⟨0, worldWithEngine, false⟩ := by
    simp [nam_has, nam_has_loudness_eq, hg]
  ⟨hhas, unsupported_axis_set_then_get .loudness 0 1 Double.five worldWithEngine
    ⟨0, worldWithEngine, false⟩ hhas rfl⟩

/-- C7. `nam_get_last_error` returns the calling thread's record, runs no
handler and leaves the whole memory as it was; two consecutive reads return
the same string, also right after a `nam_load_model` that returned no handle. -/
theorem get_last_error_is_pure_read (t : ThreadId) (w : World) (model_path : Option String) :
    (nam_get_last_error t w).world = w ∧
    (nam_get_last_error t w).ret = w.g_last_error t ∧
    (nam_get_last_error t w).caught = false ∧
    (nam_get_last_error t (nam_get_last_error t w).world).ret = (nam_get_last_error t w).ret ∧
    (nam_load_model t model_path w).ret = nullptr ∧
    (nam_get_last_error t
        (nam_get_last_error t (nam_load_model t model_path w).world).world).ret
      = (nam_get_last_error t (nam_load_model t model_path w).world).ret :=
  ⟨rfl, rfl, rfl, rfl, by rw [nam_load_model_world], rfl⟩

/-- C8. For every handle that is null or live (whatever its `ptr`),
`nam_free_model` returns without a fault and leaves the whole memory as it was,
so a second call on the same reference returns as well and two calls leave the
same state as one; on the null handle it is a no-op in every memory. -/
theorem free_model_idempotent (t : ThreadId) (dsp : Addr) (w : World)
    (h : handleOk w dsp = true) :
    nam_free_model t dsp w = some ⟨(), w, false⟩ ∧
    ((nam_free_model t dsp w).bind fun o => nam_free_model t dsp o.world)
      = nam_free_model t dsp w ∧
    ∀ w2, nam_free_model t nullptr w2 = some ⟨(), w2, false⟩ := by
  obtain ⟨b, hb⟩ := nullGuard_of_handleOk h
  have h1 : nam_free_model t dsp w = some ⟨(), w, false⟩ := by
    simp [nam_free_model_eq, hb]
  refine ⟨h1, ?_, ?_⟩
  · rw [h1]
    simp [h1]
  · intro w2
    simp [nam_free_model]

/-- C8 at a live handle whose `ptr` is non-null. -/
theorem free_model_idempotent_witness :
    handleOk worldWithEngine 1 = true ∧
    ((nam_free_model 0 1 worldWithEngine).bind fun o => nam_free_model 0 1 o.world)
      = nam_free_model 0 1 worldWithEngine :=
  have h : handleOk worldWithEngine 1 = true := by
    simp [handleOk, worldWithEngine]
  ⟨h, (free_model_idempotent 0 1 worldWithEngine h).2.1⟩

/-- C6. A sequence of wrapper calls (each by some thread, on null or live
handles) started with the record of thread `t` empty runs to its end, and the
record of `t` then equals the message written by the most recent failing call
of `t` in the sequence, empty if none failed. A failing call is a
`nam_load_model`, and it overwrites the record with a message fixed by its
argument; a call that does not fail leaves the whole memory as it was. -/
theorem error_record_is_last_failure (t : ThreadId) (ops : List (ThreadId × Op)) (w : World)
    (hok : handlesOk w ops = true) (hempty : w.g_last_error t = "") :
    (∃ w2, run ops w = some w2 ∧
      lastFailureMessage t ops w "" = some (w2.g_last_error t)) ∧
    (∀ (op : Op) (w1 : World) (o : Outcome Ret), step t op w1 = some o →
      failed op o = true →
      ∃ p, op = .load_model p ∧ o.world.g_last_error t =
        (match p with
          | none => "Model path is null"
          | some _ => "NAM library not yet integrated")) ∧
    (∀ (u : ThreadId) (op : Op) (w1 : World) (o : Outcome Ret), step u op w1 = some o →
      failed op o = false → o.world = w1) := by
  refine ⟨run_tracks_last_failure t ops w "" hok hempty.symm, ?_, ?_⟩
  · intro op w1 o ho hf
    obtain ⟨p, rfl⟩ := (failed_iff_load ho).1 hf
    refine ⟨p, rfl, ?_⟩
    rw [step_load] at ho
    simp only [Option.some.injEq] at ho
    subst ho
    simp [World.setLastError]
  · intro u op w1 o ho hf
    exact step_not_failed ho hf

/-- C6 on a sequence of thread 0: a failed load of a null path, a failed load
of a named path, then a process and a read on a live handle. -/
theorem error_record_is_last_failure_witness :
    handlesOk worldWithEngine
      [(0, .load_model none), (0, .load_model (some "amp.nam")),
        (0, .process 1 1000 2000 512), (0, .get_last_error)] = true ∧
    worldWithEngine.g_last_error 0 = "" ∧
    ∃ w2, run [(0, .load_model none), (0, .load_model (some "amp.nam")),
        (0, .process 1 1000 2000 512), (0, .get_last_error)] worldWithEngine = some w2 ∧
      lastFailureMessage 0 [(0, .load_model none), (0, .load_model (some "amp.nam")),
        (0, .process 1 1000 2000 512), (0, .get_last_error)] worldWithEngine ""
        = some (w2.g_last_error 0) ∧
      w2.g_last_error 0 = "NAM library not yet integrated" :=
  have hok : handlesOk worldWithEngine
      [(0, .load_model none), (0, .load_model (some "amp.nam")),
        (0, .process 1 1000 2000 512), (0, .get_last_error)] = true := by
    simp [handlesOk, opOk, Op.handle, handleOk, worldWithEngine]
  have hrun := (error_record_is_last_failure 0
    [(0, .load_model none), (0, .load_model (some "amp.nam")),
      (0, .process 1 1000 2000 512), (0, .get_last_error)] worldWithEngine hok rfl).1
  ⟨hok, rfl, hrun.elim fun w2 h => ⟨w2, h.1, h.2, by
    have h2 := h.2
    have hval : lastFailureMessage 0 [(0, .load_model none), (0, .load_model (some "amp.nam")),
        (0, .process 1 1000 2000 512), (0, .get_last_error)] worldWithEngine ""
        = some "NAM library not yet integrated" := rfl
    rw [hval] at h2
    exact (Option.some.inj h2).symm⟩⟩

/-- C9. For two distinct threads `A` and `B`, every wrapper call executed by `A`
on a null or live handle returns and leaves the string that
`nam_get_last_error` returns in `B` as it was; so does every `nam_load_model`
executed by `A`, which always fails. -/
theorem error_record_is_per_thread (A B : ThreadId) (op : Op) (w : World)
    (hAB : A ≠ B) (hok : opOk w op = true) :
    (∃ o, step A op w = some o ∧
      (nam_get_last_error B o.world).ret = (nam_get_last_error B w).ret) ∧
    ∀ p, (nam_load_model A p w).ret = nullptr ∧
      (nam_get_last_error B (nam_load_model A p w).world).ret
        = (nam_get_last_error B w).ret := by
  constructor
  · obtain ⟨o, ho⟩ := step_total A hok
    exact ⟨o, ho, (step_frame ho).2.2.2 B (fun h => hAB h.symm)⟩
  · intro p
    rw [nam_load_model_world]
    refine ⟨rfl, ?_⟩
    have hBA : ¬ B = A := fun h => hAB h.symm
    simp [nam_get_last_error, World.setLastError, hBA]

/-- C9 for threads 0 and 1 and a load of a missing file by thread 0. -/
theorem error_record_is_per_thread_witness :
    (0 : ThreadId) ≠ 1 ∧ opOk World.init (.load_model (some "does_not_exist.model")) = true ∧
    ∃ o, step 0 (.load_model (some "does_not_exist.model")) World.init = some o ∧
      (nam_get_last_error 1 o.world).ret = (nam_get_last_error 1 World.init).ret :=
  have hne : (0 : ThreadId) ≠ 1 := by decide
  ⟨hne, rfl,
    (error_record_is_per_thread 0 1 (.load_model (some "does_not_exist.model")) World.init
      hne rfl).1⟩

/-- C10. For every model path, valid or not, `nam_load_model` returns the null
handle, runs no handler and sets the caller's record to exactly
"Model path is null" for a null path and to exactly
"NAM library not yet integrated" for every non-null path; hence no sequence of
wrapper calls started in `Unloaded` ends in `Loaded`: on null or live handles
it ends in `Unloaded`. -/
theorem load_never_yields_handle (t : ThreadId) (model_path : Option String) (w : World)
    (ops : List (ThreadId × Op)) (w0 : World) :
    (nam_load_model t model_path w).ret = nullptr ∧
    (nam_load_model t model_path w).caught = false ∧
    (nam_get_last_error t (nam_load_model t model_path w).world).ret =
      (match model_path with
        | none => "Model path is null"
        | some _ => "NAM library not yet integrated") ∧
    runLifecycle ops w0 .Unloaded ≠ some .Loaded ∧
    (handlesOk w0 ops = true → runLifecycle ops w0 .Unloaded = some .Unloaded) := by
  refine ⟨by rw [nam_load_model_world], by rw [nam_load_model_world],
    nam_load_model_error t model_path w, ?_, ?_⟩
  · rcases runLifecycle_unloaded ops w0 with h | h <;> rw [h] <;> simp
  · intro hok
    obtain ⟨s2, hs2⟩ := runLifecycle_total ops w0 .Unloaded hok
    rcases runLifecycle_unloaded ops w0 with h | h
    · rw [h] at hs2
      exact absurd hs2 (by simp)
    · exact h

end NamWrapper
